import Mathlib

/-!
Verification of the autonomous-vehicle fleet orchestration system.

This file gives a shallow embedding, in Lean, of the dispatch, routing,
job-orchestration and vehicle-simulation logic of the repository, and
proves the stated properties about it.  Go float64 arithmetic is modelled
by exact real (or rational) arithmetic; Go maps are modelled by
association lists; wall-clock timestamps are modelled by a `now`
parameter; randomness and external I/O outcomes are modelled as explicit
parameters of the functions that consume them.
-/

/-- Model of Go `math.Atan2 y x` (finite, non-NaN inputs): the branch
structure follows the IEEE definition of `atan2`. -/
noncomputable def atan2 (y x : ℝ) : ℝ :=
  if 0 < x then Real.arctan (y / x)
  else if x < 0 ∧ 0 ≤ y then Real.arctan (y / x) + Real.pi
  else if x < 0 then Real.arctan (y / x) - Real.pi
  else if x = 0 ∧ 0 < y then Real.pi / 2
  else if x = 0 ∧ y < 0 then -(Real.pi / 2)
  else 0

/-- Embedding of `calculateDistance` from
`fleet-service/internal/service/fleet.go` (the identical copy in the job
service is shared with this definition): great-circle Haversine distance
in kilometers, Earth radius 6371 km. -/
noncomputable def calculateDistance (lat1 lng1 lat2 lng2 : ℝ) : ℝ :=
  let earthRadius : ℝ := 6371
  let lat1Rad := lat1 * Real.pi / 180
  let lng1Rad := lng1 * Real.pi / 180
  let lat2Rad := lat2 * Real.pi / 180
  let lng2Rad := lng2 * Real.pi / 180
  let dlat := lat2Rad - lat1Rad
  let dlng := lng2Rad - lng1Rad
  let a := Real.sin (dlat / 2) * Real.sin (dlat / 2) +
    Real.cos lat1Rad * Real.cos lat2Rad * Real.sin (dlng / 2) * Real.sin (dlng / 2)
  let c := 2 * atan2 (Real.sqrt a) (Real.sqrt (1 - a))
  earthRadius * c

/-- Embedding of the simulator `haversineDistance` (routing source file of
the car simulator): same formula, written as in that source. -/
noncomputable def haversineDistance (lat1 lng1 lat2 lng2 : ℝ) : ℝ :=
  let R : ℝ := 6371
  let dLat := (lat2 - lat1) * (Real.pi / 180)
  let dLng := (lng2 - lng1) * (Real.pi / 180)
  let a := Real.sin (dLat / 2) * Real.sin (dLat / 2) +
    Real.cos (lat1 * (Real.pi / 180)) * Real.cos (lat2 * (Real.pi / 180)) *
      Real.sin (dLng / 2) * Real.sin (dLng / 2)
  let c := 2 * atan2 (Real.sqrt a) (Real.sqrt (1 - a))
  R * c

/-- Embedding of `storage.Vehicle` of the fleet service (in-memory store
record): `battery_level` is an `int` in that service, coordinates and range
are float64, `last_updated` is a timestamp (modelled as ℕ). -/
structure StoredVehicle where
  id : String
  region : String
  status : String
  batteryLevel : ℤ
  batteryRangeKm : ℝ
  locationLat : ℝ
  locationLng : ℝ
  currentJobID : Option String
  lastUpdated : ℕ
  vehicleType : String

/-- Go `math.MaxFloat64`, the initial minimum-distance accumulator of the
dispatch loop. -/
noncomputable def maxFloat64 : ℝ := 2 ^ 1024 - 2 ^ 971

/-- Embedding of `MemoryVehicleStorage.GetVehiclesByRegionAndStatus`: all
stored vehicles whose region and status match. -/
def getVehiclesByRegionAndStatus (vs : List StoredVehicle) (region status : String) :
    List StoredVehicle :=
  vs.filter fun v => v.region == region && v.status == status

/-- Distance from a vehicle to the pickup point, as computed inside the
dispatch loop of `FindNearestAvailableVehicle`. -/
noncomputable def distToPickup (pickupLat pickupLng : ℝ) (v : StoredVehicle) : ℝ :=
  calculateDistance v.locationLat v.locationLng pickupLat pickupLng

/-- Embedding of the selection loop of `FindNearestAvailableVehicle`
(fleet-service `fleet.go`): the accumulator is the current best vehicle and
its distance, initially `(nil, math.MaxFloat64)`. -/
noncomputable def findBest (pickupLat pickupLng tripDistanceKm : ℝ) :
    List StoredVehicle → Option StoredVehicle × ℝ → Option StoredVehicle × ℝ
  | [], acc => acc
  | vehicle :: rest, (best, minDist) =>
    let distanceToPickup :=
      calculateDistance vehicle.locationLat vehicle.locationLng pickupLat pickupLng
    let totalDistance := (distanceToPickup + tripDistanceKm) * 1.2
    if vehicle.batteryRangeKm < totalDistance then
      findBest pickupLat pickupLng tripDistanceKm rest (best, minDist)
    else if distanceToPickup < minDist then
      findBest pickupLat pickupLng tripDistanceKm rest (some vehicle, distanceToPickup)
    else
      findBest pickupLat pickupLng tripDistanceKm rest (best, minDist)

/-- Embedding of `FleetService.FindNearestAvailableVehicle`: query the
region's available vehicles, run the selection loop, and fail when no
vehicle qualified. -/
noncomputable def FindNearestAvailableVehicle (vs : List StoredVehicle) (region : String)
    (pickupLat pickupLng tripDistanceKm : ℝ) : Except String StoredVehicle :=
  let vehicles := getVehiclesByRegionAndStatus vs region "available"
  match findBest pickupLat pickupLng tripDistanceKm vehicles (none, maxFloat64) with
  | (some bestVehicle, _) => Except.ok bestVehicle
  | (none, _) => Except.error "no available vehicle found with sufficient battery for trip"

/-- Embedding of `MemoryVehicleStorage.UpdateVehicleStatus`: sets status and
job id atomically and stamps `last_updated`; fails when the vehicle id is
unknown. -/
def UpdateVehicleStatus (now : ℕ) (vehicleID status : String) (jobID : Option String)
    (vs : List StoredVehicle) : Except String (List StoredVehicle) :=
  if vs.any fun v => v.id == vehicleID then
    Except.ok (vs.map fun v =>
      if v.id = vehicleID then
        { v with status := status, currentJobID := jobID, lastUpdated := now }
      else v)
  else
    Except.error ("vehicle " ++ vehicleID ++ " not found")

/-- Coordinate point of a route (simulator routing source). -/
structure RoutePoint where
  lat : ℝ
  lng : ℝ

/-- A route: waypoints, total distance in meters, total duration in
seconds. -/
structure Route where
  points : List RoutePoint
  distance : ℝ
  duration : ℝ

/-- One route entry of an OSRM response: geometry coordinates (as
`[lng, lat]` pairs), distance in meters and duration in seconds. -/
structure OSRMRouteData where
  coordinates : List (ℝ × ℝ)
  distance : ℝ
  duration : ℝ

/-- Decoded OSRM response body. -/
structure OSRMResponse where
  code : String
  routes : List OSRMRouteData

/-- Outcome of the external OSRM HTTP call consumed by `GetRoute`: the
network request fails, the body fails to decode, or a response is
decoded. -/
inductive OSRMCallResult where
  | netError (msg : String)
  | parseError (msg : String)
  | ok (resp : OSRMResponse)

/-- The outcomes on which `GetRoute` takes its straight-line fallback:
network error, parse error, or a decoded response with no routes. -/
def OSRMCallResult.isFailure : OSRMCallResult → Bool
  | .netError _ => true
  | .parseError _ => true
  | .ok resp => resp.routes.isEmpty

/-- Embedding of `createStraightLineRoute`: 11 points linearly interpolated
between start and end, distance = Haversine km × 1000, duration =
distance / 13.89. -/
noncomputable def createStraightLineRoute (startLat startLng endLat endLng : ℝ) : Route :=
  let points := (List.range 11).map fun i =>
    let frac : ℝ := (i : ℝ) / 10
    ({ lat := startLat + (endLat - startLat) * frac
       lng := startLng + (endLng - startLng) * frac } : RoutePoint)
  let distance := haversineDistance startLat startLng endLat endLng * 1000
  let duration := distance / 13.89
  { points := points, distance := distance, duration := duration }

/-- Embedding of `RoutingService.GetRoute` with the external call outcome as
an explicit parameter: every failure path falls back to the straight-line
route with a nil error. -/
noncomputable def GetRoute (call : OSRMCallResult) (startLat startLng endLat endLng : ℝ) :
    Except String Route :=
  match call with
  | .netError _ => Except.ok (createStraightLineRoute startLat startLng endLat endLng)
  | .parseError _ => Except.ok (createStraightLineRoute startLat startLng endLat endLng)
  | .ok resp =>
    match resp.routes with
    | [] => Except.ok (createStraightLineRoute startLat startLng endLat endLng)
    | routeData :: _ =>
      Except.ok
        { points := routeData.coordinates.map fun coord => { lat := coord.2, lng := coord.1 }
          distance := routeData.distance
          duration := routeData.duration }

/-- Charging location (simulator). -/
structure ChargingStation where
  id : String
  lat : ℝ
  lng : ℝ

/-- Embedding of `GetChargingStations`: the Portland stations for
`us-west-2`, else the default fallback stations. -/
noncomputable def GetChargingStations (region : String) : List ChargingStation :=
  if region = "us-west-2" then
    [ { id := "pioneer-place", lat := 45.5188, lng := -122.6746 },
      { id := "lloyd-center", lat := 45.5311, lng := -122.6536 },
      { id := "ohsu-campus", lat := 45.4993, lng := -122.6859 },
      { id := "pdx-airport", lat := 45.5898, lng := -122.5951 },
      { id := "hawthorne-whole-foods", lat := 45.5122, lng := -122.6208 } ]
  else
    [ { id := "default-station-1", lat := 37.7749, lng := -122.4194 },
      { id := "default-station-2", lat := 37.7849, lng := -122.4094 } ]

/-- The scan over `stations[1:]` inside `FindNearestChargingStation`. -/
noncomputable def findNearestStationLoop (vehicleLat vehicleLng : ℝ) :
    List ChargingStation → ChargingStation × ℝ → ChargingStation × ℝ
  | [], acc => acc
  | station :: rest, (nearest, minDistance) =>
    let d := haversineDistance vehicleLat vehicleLng station.lat station.lng
    if d < minDistance then findNearestStationLoop vehicleLat vehicleLng rest (station, d)
    else findNearestStationLoop vehicleLat vehicleLng rest (nearest, minDistance)

/-- Embedding of `FindNearestChargingStation`. -/
noncomputable def FindNearestChargingStation (vehicleLat vehicleLng : ℝ) (region : String) :
    ChargingStation :=
  match GetChargingStations region with
  | [] => { id := "emergency-station", lat := vehicleLat, lng := vehicleLng }
  | first :: rest =>
    (findNearestStationLoop vehicleLat vehicleLng rest
      (first, haversineDistance vehicleLat vehicleLng first.lat first.lng)).1

/-- Embedding of the simulator `job.Job` record (fields the simulation
consumes). -/
structure SimJob where
  id : String
  jobType : String
  status : String
  pickupLat : ℝ
  pickupLng : ℝ
  destinationLat : ℝ
  destinationLng : ℝ

/-- Embedding of the simulator `Vehicle` struct (`charging.go`): the public
record plus the private simulation state. Service URLs, HTTP clients and the
Kinesis handle are I/O plumbing and carry no simulation state. -/
structure SimVehicle where
  id : String
  region : String
  status : String
  batteryLevel : ℝ
  batteryRangeKm : ℝ
  locationLat : ℝ
  locationLng : ℝ
  currentJobID : Option String
  vehicleType : String
  targetLat : ℝ
  targetLng : ℝ
  isMoving : Bool
  batteryDrainRate : ℝ
  currentJob : Option SimJob
  jobPhase : String
  currentRoute : Option Route
  routeIndex : ℕ

/-- Embedding of `NewVehicle`: `batteryDraw` is the value drawn by
`rand.Intn(40)` (so the battery level is 60 + draw with draw < 40); the
drain rate is fixed at 4.0 km per percent and the range is derived from the
level. -/
noncomputable def NewVehicle (id region : String) (batteryDraw : ℕ)
    (startLat startLng : ℝ) : SimVehicle :=
  let batteryLevel : ℝ := (batteryDraw : ℝ) + 60
  let batteryDrainRate : ℝ := 4.0
  { id := id
    region := region
    status := "available"
    batteryLevel := batteryLevel
    batteryRangeKm := batteryLevel * batteryDrainRate
    locationLat := startLat
    locationLng := startLng
    currentJobID := none
    vehicleType := "sedan"
    targetLat := 0
    targetLng := 0
    isMoving := false
    batteryDrainRate := batteryDrainRate
    currentJob := none
    jobPhase := "idle"
    currentRoute := none
    routeIndex := 0 }

/-- Embedding of `handleBatteryDepletion`: a vehicle that was heading to a
charging station is teleported there with a 5 percent charge; any other
depleted vehicle is stranded in maintenance and abandons its job. -/
noncomputable def handleBatteryDepletion (v : SimVehicle) : SimVehicle :=
  if v.status = "charging" ∧ v.jobPhase = "going_to_charge" then
    let chargingStation := FindNearestChargingStation v.locationLat v.locationLng v.region
    { v with locationLat := chargingStation.lat
             locationLng := chargingStation.lng
             isMoving := false
             jobPhase := "charging"
             batteryLevel := 5
             batteryRangeKm := 5 * v.batteryDrainRate }
  else
    let v1 := { v with isMoving := false, status := "maintenance", jobPhase := "stranded" }
    if v1.currentJob.isSome then { v1 with currentJob := none, currentJobID := none } else v1

/-- Embedding of `drainBattery`: no-op for a non-positive distance;
otherwise the level drops by `kmTraveled / batteryDrainRate` clamped at 0,
the range is recomputed, and complete depletion is handled. -/
noncomputable def drainBattery (v : SimVehicle) (kmTraveled : ℝ) : SimVehicle :=
  if kmTraveled ≤ 0 then v
  else
    let batteryUsedPercent := kmTraveled / v.batteryDrainRate
    let newBatteryLevel := max 0 (v.batteryLevel - batteryUsedPercent)
    let v1 := { v with batteryLevel := newBatteryLevel
                       batteryRangeKm := newBatteryLevel * v.batteryDrainRate }
    if v1.batteryLevel = 0 then handleBatteryDepletion v1 else v1

/-- Embedding of `distanceToTarget` (Euclidean in degree space, as in the
source). -/
noncomputable def distanceToTarget (v : SimVehicle) : ℝ :=
  let latDiff := v.targetLat - v.locationLat
  let lngDiff := v.targetLng - v.locationLng
  Real.sqrt (latDiff * latDiff + lngDiff * lngDiff)

/-- Embedding of `moveTowardsTarget`; `speed` is the configurable movement
speed returned by `getMovementSpeed`. -/
noncomputable def moveTowardsTarget (speed : ℝ) (v : SimVehicle) : SimVehicle :=
  if v.batteryLevel ≤ 0 then handleBatteryDepletion v
  else
    let prevLat := v.locationLat
    let prevLng := v.locationLng
    let distance := distanceToTarget v
    if distance < 0.001 then
      { v with locationLat := v.targetLat, locationLng := v.targetLng, isMoving := false }
    else
      let factor := speed / distance
      let v1 := { v with
        locationLat := v.locationLat + (v.targetLat - v.locationLat) * factor
        locationLng := v.locationLng + (v.targetLng - v.locationLng) * factor }
      drainBattery v1 (haversineDistance prevLat prevLng v1.locationLat v1.locationLng)

/-- Embedding of `moveAlongRoute`. -/
noncomputable def moveAlongRoute (speed : ℝ) (v : SimVehicle) : SimVehicle :=
  if v.batteryLevel ≤ 0 then handleBatteryDepletion v
  else
    match v.currentRoute with
    | none => moveTowardsTarget speed v
    | some route =>
      if route.points.isEmpty then moveTowardsTarget speed v
      else if route.points.length - 1 ≤ v.routeIndex then
        { v with locationLat := v.targetLat
                 locationLng := v.targetLng
                 isMoving := false
                 currentRoute := none
                 routeIndex := 0 }
      else
        let prevLat := v.locationLat
        let prevLng := v.locationLng
        let nextPoint := route.points.getD (v.routeIndex + 1) { lat := 0, lng := 0 }
        let stepSize := speed
        let latDiff := nextPoint.lat - v.locationLat
        let lngDiff := nextPoint.lng - v.locationLng
        let distance := Real.sqrt (latDiff * latDiff + lngDiff * lngDiff)
        let v1 :=
          if distance < stepSize then
            { v with routeIndex := v.routeIndex + 1
                     locationLat := nextPoint.lat
                     locationLng := nextPoint.lng }
          else
            { v with locationLat := v.locationLat + latDiff / distance * stepSize
                     locationLng := v.locationLng + lngDiff / distance * stepSize }
        drainBattery v1 (haversineDistance prevLat prevLng v1.locationLat v1.locationLng)

/-- Embedding of `simulateCharging`: drive toward the station while in the
going-to-charge phase, else add 2 percentage points per tick while below 95
and return to service at 95 or above. -/
noncomputable def simulateCharging (speed : ℝ) (v : SimVehicle) : SimVehicle :=
  if v.isMoving = true ∧ v.jobPhase = "going_to_charge" then
    let v1 := moveAlongRoute speed v
    if distanceToTarget v1 < 0.001 then { v1 with isMoving := false, jobPhase := "charging" }
    else v1
  else if v.jobPhase = "charging" then
    if v.batteryLevel < 95 then
      { v with batteryLevel := v.batteryLevel + 2
               batteryRangeKm := (v.batteryLevel + 2) * v.batteryDrainRate }
    else
      { v with status := "available", isMoving := false, jobPhase := "idle" }
  else v

/-- Embedding of `setRouteTarget`, with the routing call outcome as an
explicit parameter. -/
noncomputable def setRouteTarget (ext : OSRMCallResult) (targetLat targetLng : ℝ)
    (v : SimVehicle) : SimVehicle :=
  let v1 := { v with targetLat := targetLat, targetLng := targetLng }
  match GetRoute ext v1.locationLat v1.locationLng targetLat targetLng with
  | Except.error _ => { v1 with currentRoute := none, isMoving := true }
  | Except.ok route => { v1 with currentRoute := some route, routeIndex := 0, isMoving := true }

/-- Embedding of `goToCharge`. -/
noncomputable def goToCharge (ext : OSRMCallResult) (v : SimVehicle) : SimVehicle :=
  let chargingStation := FindNearestChargingStation v.locationLat v.locationLng v.region
  let v1 := { v with status := "charging" }
  let v2 := setRouteTarget ext chargingStation.lat chargingStation.lng v1
  { v2 with jobPhase := "going_to_charge" }

/-- Embedding of `simulateMaintenance`: a stranded vehicle receives an
emergency charge to 20 percent and heads to a charging station. -/
noncomputable def simulateMaintenance (ext : OSRMCallResult) (v : SimVehicle) : SimVehicle :=
  if v.jobPhase = "stranded" then
    goToCharge ext
      { v with batteryLevel := 20
               batteryRangeKm := 20 * v.batteryDrainRate
               status := "charging"
               jobPhase := "going_to_charge" }
  else v

/-- The battery-range derivation invariant of the simulator:
`battery_range_km` equals `battery_level * batteryDrainRate`. -/
def rangeInv (v : SimVehicle) : Prop :=
  v.batteryRangeKm = v.batteryLevel * v.batteryDrainRate

/-- Battery level stays a percentage. -/
def batteryBounds (v : SimVehicle) : Prop :=
  0 ≤ v.batteryLevel ∧ v.batteryLevel ≤ 100

/-- A concrete healthy simulator vehicle used for witness instances. -/
noncomputable def testSimVehicle : SimVehicle :=
  NewVehicle "veh-1" "us-west-2" 20 45.52 (-122.67)

/-- A concrete vehicle heading to a charging station on a nearly empty
battery, used for counterexample and witness instances. -/
noncomputable def lowBatteryChargingVehicle : SimVehicle :=
  { id := "veh-2"
    region := "us-west-2"
    status := "charging"
    batteryLevel := 1
    batteryRangeKm := 4
    locationLat := 45.52
    locationLng := -122.67
    currentJobID := none
    vehicleType := "sedan"
    targetLat := 45.5188
    targetLng := -122.6746
    isMoving := true
    batteryDrainRate := 4
    currentJob := none
    jobPhase := "going_to_charge"
    currentRoute := none
    routeIndex := 0 }

/-- Delivery-specific information of a job. -/
structure DeliveryDetails where
  restaurantName : String
  items : List String
  instructions : String

/-- Embedding of `storage.Job` of the job service. Timestamps are modelled
as ℕ ticks and money amounts as exact reals. -/
structure Job where
  id : String
  jobType : String
  status : String
  assignedVehicleID : Option String
  pickupLat : ℝ
  pickupLng : ℝ
  destinationLat : ℝ
  destinationLng : ℝ
  estimatedDistanceKm : ℝ
  createdAt : ℕ
  assignedAt : Option ℕ
  completedAt : Option ℕ
  customerID : String
  region : String
  deliveryDetails : Option DeliveryDetails
  fareAmount : ℝ
  baseFare : ℝ
  distanceFare : ℝ

/-- The in-memory job store (`MemoryJobStorage.jobs`), as an association
list from job id to record. -/
abbrev JobState := List (String × Job)

/-- Embedding of `MemoryJobStorage.CreateJob`: fails on duplicate id,
otherwise stamps `created_at` and inserts. -/
def CreateJob (now : ℕ) (job : Job) (st : JobState) : Except String JobState :=
  if (st.lookup job.id).isSome then
    Except.error ("job " ++ job.id ++ " already exists")
  else
    Except.ok ((job.id, { job with createdAt := now }) :: st)

/-- Point update of the record stored under a key (mutation of one Go map
entry). -/
def setJobAssoc : JobState → String → Job → JobState
  | [], _, _ => []
  | (k1, j) :: tl, k, j1 => (if k1 = k then (k, j1) else (k1, j)) :: setJobAssoc tl k j1

/-- Embedding of `MemoryJobStorage.UpdateJobStatus`: sets status and
assigned vehicle together, stamping `assigned_at` or `completed_at`
according to the new status; fails when the job id is unknown. -/
def UpdateJobStatus (now : ℕ) (jobID status : String) (vehicleID : Option String)
    (st : JobState) : Except String JobState :=
  match st.lookup jobID with
  | none => Except.error ("job " ++ jobID ++ " not found")
  | some job =>
    let j1 := { job with
      status := status
      assignedVehicleID := vehicleID
      assignedAt := if status = "assigned" then some now else job.assignedAt
      completedAt := if status = "completed" then some now else job.completedAt }
    Except.ok (setJobAssoc st jobID j1)

/-- Pricing parameters of the job service. -/
structure PricingConfig where
  rideBaseFare : ℝ
  ridePerKm : ℝ
  deliveryFlatRate : ℝ

/-- Embedding of `DefaultPricingConfig`: standard Portland pricing. -/
noncomputable def DefaultPricingConfig : PricingConfig :=
  { rideBaseFare := 2.50, ridePerKm := 1.80, deliveryFlatRate := 8.99 }

/-- Embedding of `PricingConfig.CalculateFare`: distance-based fare for
rides, flat rate for everything else. -/
noncomputable def CalculateFare (p : PricingConfig) (job : Job) : Job :=
  if job.jobType = "ride" then
    { job with baseFare := p.rideBaseFare
               distanceFare := job.estimatedDistanceKm * p.ridePerKm
               fareAmount := p.rideBaseFare + job.estimatedDistanceKm * p.ridePerKm }
  else
    { job with baseFare := p.deliveryFlatRate
               distanceFare := 0
               fareAmount := p.deliveryFlatRate }

/-- The ride job record built inside `CreateRideJob` before persistence:
`jobIDNum` is the counter value drawn from `generateJobID`. -/
noncomputable def mkRideJob (now jobIDNum : ℕ) (customerID region : String)
    (pickupLat pickupLng destLat destLng : ℝ) : Job :=
  CalculateFare DefaultPricingConfig
    { id := "ride-" ++ toString jobIDNum
      jobType := "ride"
      status := "pending"
      assignedVehicleID := none
      pickupLat := pickupLat
      pickupLng := pickupLng
      destinationLat := destLat
      destinationLng := destLng
      estimatedDistanceKm := calculateDistance pickupLat pickupLng destLat destLng
      createdAt := now
      assignedAt := none
      completedAt := none
      customerID := customerID
      region := region
      deliveryDetails := none
      fareAmount := 0
      baseFare := 0
      distanceFare := 0 }

/-- The delivery job record built inside `CreateDeliveryJob` before
persistence. -/
noncomputable def mkDeliveryJob (now jobIDNum : ℕ) (customerID region : String)
    (pickupLat pickupLng destLat destLng : ℝ) (details : Option DeliveryDetails) : Job :=
  CalculateFare DefaultPricingConfig
    { id := "delivery-" ++ toString jobIDNum
      jobType := "delivery"
      status := "pending"
      assignedVehicleID := none
      pickupLat := pickupLat
      pickupLng := pickupLng
      destinationLat := destLat
      destinationLng := destLng
      estimatedDistanceKm := calculateDistance pickupLat pickupLng destLat destLng
      createdAt := now
      assignedAt := none
      completedAt := none
      customerID := customerID
      region := region
      deliveryDetails := details
      fareAmount := 0
      baseFare := 0
      distanceFare := 0 }

/-- Embedding of `JobService.assignJob`, composed with the fleet service
over its in-memory store (the production fleet client calls exactly these
fleet-service operations): find the nearest vehicle, mark it busy with this
job id, then mark the job assigned. A failure at any stage propagates as an
error while keeping whatever state had already been reached. -/
noncomputable def assignJob (now : ℕ) (job : Job) (jobs : JobState)
    (fleet : List StoredVehicle) : Except String Unit × JobState × List StoredVehicle :=
  match FindNearestAvailableVehicle fleet job.region job.pickupLat job.pickupLng
      job.estimatedDistanceKm with
  | Except.error e => (Except.error ("no available vehicle found: " ++ e), jobs, fleet)
  | Except.ok vehicle =>
    match UpdateVehicleStatus now vehicle.id "busy" (some job.id) fleet with
    | Except.error e =>
      (Except.error ("failed to assign job to vehicle: " ++ e), jobs, fleet)
    | Except.ok fleet1 =>
      match UpdateJobStatus now job.id "assigned" (some vehicle.id) jobs with
      | Except.error e => (Except.error ("failed to update job status: " ++ e), jobs, fleet1)
      | Except.ok jobs1 => (Except.ok (), jobs1, fleet1)

/-- The persist-then-try-to-assign block shared verbatim by
`CreateRideJob` and `CreateDeliveryJob`: persist the job as pending, then
attempt immediate assignment, deliberately dropping any assignment error
(the job simply remains pending). -/
noncomputable def createAndAssign (now : ℕ) (job : Job) (jobs : JobState)
    (fleet : List StoredVehicle) : Except String Job × JobState × List StoredVehicle :=
  match CreateJob now job jobs with
  | Except.error e => (Except.error e, jobs, fleet)
  | Except.ok jobs1 =>
    let r := assignJob now job jobs1 fleet
    (Except.ok job, r.2.1, r.2.2)

/-- Embedding of `JobService.CreateRideJob`: build and price the ride job,
then persist and attempt assignment. -/
noncomputable def CreateRideJob (now jobIDNum : ℕ) (customerID region : String)
    (pickupLat pickupLng destLat destLng : ℝ) (jobs : JobState)
    (fleet : List StoredVehicle) : Except String Job × JobState × List StoredVehicle :=
  createAndAssign now
    (mkRideJob now jobIDNum customerID region pickupLat pickupLng destLat destLng) jobs fleet

/-- Embedding of `JobService.CreateDeliveryJob`: build and price the
delivery job, then persist and attempt assignment. -/
noncomputable def CreateDeliveryJob (now jobIDNum : ℕ) (customerID region : String)
    (pickupLat pickupLng destLat destLng : ℝ) (details : Option DeliveryDetails)
    (jobs : JobState) (fleet : List StoredVehicle) :
    Except String Job × JobState × List StoredVehicle :=
  createAndAssign now
    (mkDeliveryJob now jobIDNum customerID region pickupLat pickupLng destLat destLng details)
    jobs fleet

/-- Embedding of `JobService.CompleteJob`: load the job, reject any status
outside assigned and in-progress, then mark it completed keeping its
assigned vehicle. -/
def CompleteJob (now : ℕ) (jobID : String) (jobs : JobState) :
    Except String Unit × JobState :=
  match jobs.lookup jobID with
  | none => (Except.error ("job " ++ jobID ++ " not found"), jobs)
  | some job =>
    if job.status ≠ "assigned" ∧ job.status ≠ "in_progress" then
      (Except.error
        ("job " ++ jobID ++ " is not in progress, current status: " ++ job.status), jobs)
    else
      match UpdateJobStatus now jobID "completed" job.assignedVehicleID jobs with
      | Except.error e => (Except.error e, jobs)
      | Except.ok jobs1 => (Except.ok (), jobs1)

/-- A concrete job still in status pending, for witness instances. -/
noncomputable def pendingTestJob : Job :=
  { id := "ride-1"
    jobType := "ride"
    status := "pending"
    assignedVehicleID := none
    pickupLat := 45.52
    pickupLng := -122.67
    destinationLat := 45.53
    destinationLng := -122.66
    estimatedDistanceKm := 1.5
    createdAt := 0
    assignedAt := none
    completedAt := none
    customerID := "customer-123"
    region := "us-west-2"
    deliveryDetails := none
    fareAmount := 5.2
    baseFare := 2.5
    distanceFare := 2.7 }

/-- A concrete assigned job, for witness instances. -/
noncomputable def assignedTestJob : Job :=
  { pendingTestJob with
    id := "ride-2"
    status := "assigned"
    assignedVehicleID := some "veh-1"
    assignedAt := some 3 }

/-- Outcome of the registration retry loop: success on a given attempt
index, a context-deadline timeout error, or exhaustion of all retries (both
error outcomes propagate to the vehicle startup as errors). -/
inductive RegOutcome where
  | success (attempt : ℕ)
  | timeoutErr
  | exhausted
deriving DecidableEq

/-- The capped backoff delay sequence of `registerWithFleetRetry`, in
seconds: base 1, factor 1.5, cap 30 (exact rationals; the float
nanosecond arithmetic of the source is exact on these values). -/
def delaySeq : ℕ → ℚ
  | 0 => 1
  | n + 1 => min (delaySeq n * 1.5) 30

/-- The same delay sequence started from an arbitrary current delay
(used to state the loop invariant). -/
def delayFrom (d : ℚ) : ℕ → ℚ
  | 0 => d
  | n + 1 => delayFrom (min (d * 1.5) 30) n

/-- Embedding of the retry loop of `registerWithFleetRetry`. `fails n`
says whether the n-th registration attempt fails, `dur n` is the wall time
that attempt consumes, `rem` counts the attempts left (maxRetries at
entry), `delay` is the next backoff delay and `elapsed` the wall time
since entry, which the context deadline of 300 seconds is checked against
while waiting. The returned list records the sleeps performed. When the
wait timer and the deadline would fire simultaneously the timer is taken
(the Go select picks either arbitrarily). -/
def registerLoop (fails : ℕ → Bool) (dur : ℕ → ℚ) :
    ℕ → ℕ → ℚ → ℚ → RegOutcome × List ℚ
  | 0, _, _, _ => (RegOutcome.exhausted, [])
  | rem + 1, attempt, delay, elapsed =>
    let elapsed1 := elapsed + dur attempt
    if fails attempt = false then (RegOutcome.success attempt, [])
    else if rem = 0 then (RegOutcome.exhausted, [])
    else if 300 < elapsed1 + delay then (RegOutcome.timeoutErr, [])
    else
      let next := registerLoop fails dur rem (attempt + 1)
        (min (delay * 1.5) 30) (elapsed1 + delay)
      (next.1, delay :: next.2)

/-- Embedding of `registerWithFleetRetry`: at most 10 attempts, base delay
1 second, starting the 5-minute deadline clock at 0. -/
def registerWithFleetRetry (fails : ℕ → Bool) (dur : ℕ → ℚ) : RegOutcome × List ℚ :=
  registerLoop fails dur 10 0 1 0

theorem atan2_zero_one : atan2 0 1 = 0 := by
  unfold atan2
  rw [if_pos one_pos]
  simp [Real.arctan_zero]

/-- C8: for both great-circle distance implementations, the distance from a
point to itself is 0, and the distance is symmetric in its two points. -/
theorem distance_zero_and_symm (lat1 lng1 lat2 lng2 : ℝ) :
    calculateDistance lat1 lng1 lat1 lng1 = 0 ∧
    calculateDistance lat1 lng1 lat2 lng2 = calculateDistance lat2 lng2 lat1 lng1 ∧
    haversineDistance lat1 lng1 lat1 lng1 = 0 ∧
    haversineDistance lat1 lng1 lat2 lng2 = haversineDistance lat2 lng2 lat1 lng1 := by
  have hzero : ∀ lat lng : ℝ, calculateDistance lat lng lat lng = 0 := by
    intro lat lng
    unfold calculateDistance
    simp only [sub_self, zero_div, Real.sin_zero, mul_zero, zero_mul, add_zero, zero_add,
      Real.sqrt_zero, sub_zero, Real.sqrt_one, atan2_zero_one]
  have hhzero : ∀ lat lng : ℝ, haversineDistance lat lng lat lng = 0 := by
    intro lat lng
    unfold haversineDistance
    simp only [sub_self, zero_mul, zero_div, Real.sin_zero, mul_zero, add_zero, zero_add,
      Real.sqrt_zero, sub_zero, Real.sqrt_one, atan2_zero_one]
  have hsymm : calculateDistance lat1 lng1 lat2 lng2 = calculateDistance lat2 lng2 lat1 lng1 := by
    unfold calculateDistance
    have h1 : (lat1 * Real.pi / 180 - lat2 * Real.pi / 180) / 2 =
        -((lat2 * Real.pi / 180 - lat1 * Real.pi / 180) / 2) := by ring
    have h2 : (lng1 * Real.pi / 180 - lng2 * Real.pi / 180) / 2 =
        -((lng2 * Real.pi / 180 - lng1 * Real.pi / 180) / 2) := by ring
    simp only [h1, h2, Real.sin_neg]
    ring_nf
  have hhsymm : haversineDistance lat1 lng1 lat2 lng2 = haversineDistance lat2 lng2 lat1 lng1 := by
    unfold haversineDistance
    have h1 : (lat1 - lat2) * (Real.pi / 180) / 2 =
        -((lat2 - lat1) * (Real.pi / 180) / 2) := by ring
    have h2 : (lng1 - lng2) * (Real.pi / 180) / 2 =
        -((lng2 - lng1) * (Real.pi / 180) / 2) := by ring
    simp only [h1, h2, Real.sin_neg]
    ring_nf
  exact ⟨hzero lat1 lng1, hsymm, hhzero lat1 lng1, hhsymm⟩

theorem atan2_abs_lt_two_pi (y x : ℝ) :
    -(2 * Real.pi) < atan2 y x ∧ atan2 y x < 2 * Real.pi := by
  have hpi := Real.pi_pos
  have h1 := Real.arctan_lt_pi_div_two (y / x)
  have h2 := Real.neg_pi_div_two_lt_arctan (y / x)
  unfold atan2
  split_ifs <;> constructor <;> nlinarith

theorem calculateDistance_lt_maxFloat64 (lat1 lng1 lat2 lng2 : ℝ) :
    calculateDistance lat1 lng1 lat2 lng2 < maxFloat64 := by
  have hb := atan2_abs_lt_two_pi
    (Real.sqrt
      (Real.sin ((lat2 * Real.pi / 180 - lat1 * Real.pi / 180) / 2) *
          Real.sin ((lat2 * Real.pi / 180 - lat1 * Real.pi / 180) / 2) +
        Real.cos (lat1 * Real.pi / 180) * Real.cos (lat2 * Real.pi / 180) *
          Real.sin ((lng2 * Real.pi / 180 - lng1 * Real.pi / 180) / 2) *
          Real.sin ((lng2 * Real.pi / 180 - lng1 * Real.pi / 180) / 2)))
    (Real.sqrt
      (1 -
        (Real.sin ((lat2 * Real.pi / 180 - lat1 * Real.pi / 180) / 2) *
            Real.sin ((lat2 * Real.pi / 180 - lat1 * Real.pi / 180) / 2) +
          Real.cos (lat1 * Real.pi / 180) * Real.cos (lat2 * Real.pi / 180) *
            Real.sin ((lng2 * Real.pi / 180 - lng1 * Real.pi / 180) / 2) *
            Real.sin ((lng2 * Real.pi / 180 - lng1 * Real.pi / 180) / 2))))
  have hpilt : Real.pi < 3.15 := Real.pi_lt_d2
  have hpi := Real.pi_pos
  have hmf : (131072 : ℝ) ≤ maxFloat64 := by
    have hsplit : maxFloat64 = 2 ^ 971 * (2 ^ 53 - 1) := by
      unfold maxFloat64; ring
    have h17 : (131072 : ℝ) = 2 ^ 17 := by norm_num
    have hpow : (2 : ℝ) ^ 17 ≤ 2 ^ 971 := by
      exact pow_le_pow_right₀ one_le_two (by norm_num)
    nlinarith [pow_pos (show (0:ℝ) < 2 by norm_num) 971]
  unfold calculateDistance
  nlinarith [hb.1, hb.2]

theorem findBest_go (pickupLat pickupLng tripDistanceKm : ℝ) (rest : List StoredVehicle) :
    ∀ (best : Option StoredVehicle) (minDist : ℝ)
      (_ : ∀ b, best = some b → distToPickup pickupLat pickupLng b = minDist)
      (_ : best = none → minDist = maxFloat64)
      (res : Option StoredVehicle × ℝ)
      (_ : res = findBest pickupLat pickupLng tripDistanceKm rest (best, minDist)),
      (∀ b1, res.1 = some b1 → best = some b1 ∨ (b1 ∈ rest ∧
        (distToPickup pickupLat pickupLng b1 + tripDistanceKm) * 1.2 ≤ b1.batteryRangeKm)) ∧
      (∀ b1, res.1 = some b1 → distToPickup pickupLat pickupLng b1 = res.2) ∧
      res.2 ≤ minDist ∧
      (∀ w ∈ rest,
        (distToPickup pickupLat pickupLng w + tripDistanceKm) * 1.2 ≤ w.batteryRangeKm →
        res.2 ≤ distToPickup pickupLat pickupLng w) ∧
      (res.1 = none → best = none ∧ ∀ w ∈ rest,
        ¬ ((distToPickup pickupLat pickupLng w + tripDistanceKm) * 1.2 ≤ w.batteryRangeKm)) := by
  induction rest with
  | nil =>
    intro best minDist hbest hnone res hres
    simp only [findBest] at hres
    subst hres
    refine ⟨fun b1 h => Or.inl h, fun b1 h => hbest b1 h, le_refl _, ?_, ?_⟩
    · intro w hw; exact absurd hw (List.not_mem_nil w)
    · intro h; exact ⟨h, fun w hw => absurd hw (List.not_mem_nil w)⟩
  | cons v tl ih =>
    intro best minDist hbest hnone res hres
    simp only [findBest] at hres
    by_cases hrej : v.batteryRangeKm <
        (calculateDistance v.locationLat v.locationLng pickupLat pickupLng + tripDistanceKm) * 1.2
    · rw [if_pos hrej] at hres
      obtain ⟨c1, c2, c3, c4, c5⟩ := ih best minDist hbest hnone res hres
      have hvno : ¬ ((distToPickup pickupLat pickupLng v + tripDistanceKm) * 1.2 ≤
          v.batteryRangeKm) := by
        intro hle
        exact absurd hle (not_le.mpr hrej)
      refine ⟨?_, c2, c3, ?_, ?_⟩
      · intro b1 h
        rcases c1 b1 h with h1 | ⟨hm, hq⟩
        · exact Or.inl h1
        · exact Or.inr ⟨List.mem_cons_of_mem v hm, hq⟩
      · intro w hw hq
        rcases List.mem_cons.mp hw with rfl | hw2
        · exact absurd hq hvno
        · exact c4 w hw2 hq
      · intro h
        obtain ⟨hb, hall⟩ := c5 h
        refine ⟨hb, ?_⟩
        intro w hw
        rcases List.mem_cons.mp hw with rfl | hw2
        · exact hvno
        · exact hall w hw2
    · rw [if_neg hrej] at hres
      have hvq : (distToPickup pickupLat pickupLng v + tripDistanceKm) * 1.2 ≤
          v.batteryRangeKm := not_lt.mp hrej
      by_cases hlt : calculateDistance v.locationLat v.locationLng pickupLat pickupLng < minDist
      · rw [if_pos hlt] at hres
        obtain ⟨c1, c2, c3, c4, c5⟩ := ih (some v)
          (calculateDistance v.locationLat v.locationLng pickupLat pickupLng)
          (by intro b hb; cases hb; rfl)
          (by intro h; cases h) res hres
        refine ⟨?_, c2, le_trans c3 (le_of_lt hlt), ?_, ?_⟩
        · intro b1 h
          rcases c1 b1 h with h1 | ⟨hm, hq⟩
          · cases h1
            exact Or.inr ⟨List.mem_cons_self v tl, hvq⟩
          · exact Or.inr ⟨List.mem_cons_of_mem v hm, hq⟩
        · intro w hw hq
          rcases List.mem_cons.mp hw with rfl | hw2
          · exact c3
          · exact c4 w hw2 hq
        · intro h
          obtain ⟨hb, _⟩ := c5 h
          cases hb
      · rw [if_neg hlt] at hres
        obtain ⟨c1, c2, c3, c4, c5⟩ := ih best minDist hbest hnone res hres
        have hge : minDist ≤ calculateDistance v.locationLat v.locationLng pickupLat pickupLng :=
          not_lt.mp hlt
        refine ⟨?_, c2, c3, ?_, ?_⟩
        · intro b1 h
          rcases c1 b1 h with h1 | ⟨hm, hq⟩
          · exact Or.inl h1
          · exact Or.inr ⟨List.mem_cons_of_mem v hm, hq⟩
        · intro w hw hq
          rcases List.mem_cons.mp hw with rfl | hw2
          · exact le_trans c3 hge
          · exact c4 w hw2 hq
        · intro h
          obtain ⟨hb, hall⟩ := c5 h
          exfalso
          have hmd : minDist = maxFloat64 := hnone hb
          have := calculateDistance_lt_maxFloat64 v.locationLat v.locationLng pickupLat pickupLng
          rw [hmd] at hge
          exact absurd (lt_of_le_of_lt hge this) (lt_irrefl _)

theorem mem_getVehiclesByRegionAndStatus (vs : List StoredVehicle) (region status : String)
    (v : StoredVehicle) :
    v ∈ getVehiclesByRegionAndStatus vs region status ↔
      v ∈ vs ∧ v.region = region ∧ v.status = status := by
  unfold getVehiclesByRegionAndStatus
  simp [List.mem_filter, Bool.and_eq_true, beq_iff_eq, and_assoc]

theorem findNearestAvailableVehicle_eq_match (vs : List StoredVehicle) (region : String)
    (pickupLat pickupLng tripDistanceKm : ℝ) :
    FindNearestAvailableVehicle vs region pickupLat pickupLng tripDistanceKm =
      match (findBest pickupLat pickupLng tripDistanceKm
          (getVehiclesByRegionAndStatus vs region "available") (none, maxFloat64)).1 with
      | some b => Except.ok b
      | none => Except.error "no available vehicle found with sufficient battery for trip" := by
  unfold FindNearestAvailableVehicle
  rcases hres : findBest pickupLat pickupLng tripDistanceKm
      (getVehiclesByRegionAndStatus vs region "available") (none, maxFloat64) with ⟨ob, md⟩
  simp only [hres]
  rcases ob with _ | b <;> rfl

/-- C1: the dispatcher considers only stored vehicles in the requested region
with status available; a considered vehicle whose battery range is below
`(distanceToPickup + tripDistanceKm) * 1.2` is rejected; when a vehicle is
returned it is a qualifying vehicle at minimal distance to the pickup point
among the qualifiers; and the call returns the no-vehicle error exactly when
no stored vehicle qualifies. -/
theorem findNearestAvailableVehicle_dispatch (vs : List StoredVehicle) (region : String)
    (pickupLat pickupLng tripDistanceKm : ℝ) :
    (∀ v, FindNearestAvailableVehicle vs region pickupLat pickupLng tripDistanceKm =
        Except.ok v →
      v ∈ vs ∧ v.region = region ∧ v.status = "available" ∧
      (distToPickup pickupLat pickupLng v + tripDistanceKm) * 1.2 ≤ v.batteryRangeKm ∧
      ∀ w ∈ vs, w.region = region → w.status = "available" →
        (distToPickup pickupLat pickupLng w + tripDistanceKm) * 1.2 ≤ w.batteryRangeKm →
        distToPickup pickupLat pickupLng v ≤ distToPickup pickupLat pickupLng w) ∧
    ((∀ w ∈ vs, w.region = region → w.status = "available" →
        ¬ ((distToPickup pickupLat pickupLng w + tripDistanceKm) * 1.2 ≤ w.batteryRangeKm)) ↔
      FindNearestAvailableVehicle vs region pickupLat pickupLng tripDistanceKm =
        Except.error "no available vehicle found with sufficient battery for trip") := by
  obtain ⟨c1, c2, _, c4, c5⟩ := findBest_go pickupLat pickupLng tripDistanceKm
    (getVehiclesByRegionAndStatus vs region "available") none maxFloat64
    (by intro b hb; cases hb) (by intro _; rfl)
    (findBest pickupLat pickupLng tripDistanceKm
      (getVehiclesByRegionAndStatus vs region "available") (none, maxFloat64)) rfl
  have heq := findNearestAvailableVehicle_eq_match vs region pickupLat pickupLng tripDistanceKm
  constructor
  · intro v hok
    rw [heq] at hok
    rcases hfst : (findBest pickupLat pickupLng tripDistanceKm
        (getVehiclesByRegionAndStatus vs region "available") (none, maxFloat64)).1 with _ | b
    · rw [hfst] at hok; cases hok
    · rw [hfst] at hok
      have hveq : b = v := by simpa using hok
      subst hveq
      have hmem : b ∈ getVehiclesByRegionAndStatus vs region "available" := by
        rcases c1 b hfst with h | ⟨hm, _⟩
        · cases h
        · exact hm
      have hq : (distToPickup pickupLat pickupLng b + tripDistanceKm) * 1.2 ≤
          b.batteryRangeKm := by
        rcases c1 b hfst with h | ⟨_, hq⟩
        · cases h
        · exact hq
      obtain ⟨hin, hreg, hst⟩ := (mem_getVehiclesByRegionAndStatus vs region "available" b).mp hmem
      refine ⟨hin, hreg, hst, hq, ?_⟩
      intro w hw hwreg hwst hwq
      have hwmem : w ∈ getVehiclesByRegionAndStatus vs region "available" :=
        (mem_getVehiclesByRegionAndStatus vs region "available" w).mpr ⟨hw, hwreg, hwst⟩
      have hle := c4 w hwmem hwq
      have hbd := c2 b hfst
      rw [hbd]
      exact hle
  · constructor
    · intro hnone
      rw [heq]
      rcases hfst : (findBest pickupLat pickupLng tripDistanceKm
          (getVehiclesByRegionAndStatus vs region "available") (none, maxFloat64)).1 with _ | b
      · rfl
      · exfalso
        rcases c1 b hfst with h | ⟨hm, hq⟩
        · cases h
        · obtain ⟨hin, hreg, hst⟩ :=
            (mem_getVehiclesByRegionAndStatus vs region "available" b).mp hm
          exact hnone b hin hreg hst hq
    · intro herr w hw hwreg hwst hwq
      rw [heq] at herr
      rcases hfst : (findBest pickupLat pickupLng tripDistanceKm
          (getVehiclesByRegionAndStatus vs region "available") (none, maxFloat64)).1 with _ | b
      · have hwmem : w ∈ getVehiclesByRegionAndStatus vs region "available" :=
          (mem_getVehiclesByRegionAndStatus vs region "available" w).mpr ⟨hw, hwreg, hwst⟩
        exact (c5 hfst).2 w hwmem hwq
      · rw [hfst] at herr; cases herr

/-- C1 witness: with no stored vehicles at all, the dispatcher returns the
no-vehicle error. -/
theorem findNearestAvailableVehicle_dispatch_witness :
    FindNearestAvailableVehicle [] "us-west-2" 0 0 50 =
      Except.error "no available vehicle found with sufficient battery for trip" :=
  (findNearestAvailableVehicle_dispatch [] "us-west-2" 0 0 50).2.mp
    (by intro w hw; exact absurd hw (List.not_mem_nil w))

/-- C10: `drainBattery` with a non-positive distance leaves the vehicle
record completely unchanged, so depletion handling cannot trigger. -/
theorem drainBattery_nonpos_noop (v : SimVehicle) (kmTraveled : ℝ)
    (h : kmTraveled ≤ 0) : drainBattery v kmTraveled = v := by
  unfold drainBattery
  rw [if_pos h]

/-- C10 witness: draining a concrete vehicle by 0 km changes nothing. -/
theorem drainBattery_nonpos_noop_witness :
    drainBattery testSimVehicle 0 = testSimVehicle :=
  drainBattery_nonpos_noop testSimVehicle 0 (le_refl 0)

/-- C4 counterexample: for a vehicle that is heading to a charging station
(status charging, phase going-to-charge) at battery level 1 and drain rate
4, draining 100 km does not leave the level at `max 0 (1 - 100/4) = 0`:
depletion recovery immediately sets it to 5. -/
theorem drainBattery_clamp_counterexample :
    ¬ ((drainBattery lowBatteryChargingVehicle 100).batteryLevel =
       max 0 (lowBatteryChargingVehicle.batteryLevel -
         100 / lowBatteryChargingVehicle.batteryDrainRate)) := by
  have hmax : max (0:ℝ) (1 - 100 / 4) = 0 := max_eq_left (by norm_num)
  have hlevel : (drainBattery lowBatteryChargingVehicle 100).batteryLevel = 5 := by
    unfold drainBattery
    rw [if_neg (by norm_num : ¬ (100:ℝ) ≤ 0)]
    simp only [lowBatteryChargingVehicle, hmax]
    rw [if_pos trivial]
    unfold handleBatteryDepletion
    split_ifs with hc
    · rfl
    · exact absurd ⟨rfl, rfl⟩ hc
  intro hclaim
  rw [hlevel] at hclaim
  simp only [lowBatteryChargingVehicle] at hclaim
  rw [hmax] at hclaim
  norm_num at hclaim

/-- C4 (amended): with d > 0 and drain rate 4, `drainBattery` first sets the
level to exactly `max 0 (b - d/4)` with full fractional precision; when that
clamped value is positive it is the final level; when it is 0, depletion
handling runs immediately: a vehicle heading to a charging station ends at
level 5, any other vehicle ends clamped at exactly 0; the final level is
never negative. -/
theorem drainBattery_clamp (v : SimVehicle) (d : ℝ) (hd : 0 < d)
    (hr : v.batteryDrainRate = 4) :
    (0 < max 0 (v.batteryLevel - d / 4) →
      (drainBattery v d).batteryLevel = v.batteryLevel - d / 4) ∧
    (max 0 (v.batteryLevel - d / 4) = 0 →
      ((v.status = "charging" ∧ v.jobPhase = "going_to_charge") →
        (drainBattery v d).batteryLevel = 5) ∧
      (¬ (v.status = "charging" ∧ v.jobPhase = "going_to_charge") →
        (drainBattery v d).batteryLevel = 0)) ∧
    0 ≤ (drainBattery v d).batteryLevel := by
  have hnle : ¬ d ≤ 0 := not_le.mpr hd
  refine ⟨?_, ?_, ?_⟩
  · intro hpos
    have hsub : 0 < v.batteryLevel - d / 4 := by
      rcases lt_max_iff.mp hpos with h | h
      · exact absurd h (lt_irrefl 0)
      · exact h
    have hmax : max 0 (v.batteryLevel - d / 4) = v.batteryLevel - d / 4 :=
      max_eq_right (le_of_lt hsub)
    unfold drainBattery
    rw [if_neg hnle]
    simp only [hr, hmax]
    rw [if_neg (by exact ne_of_gt hsub)]
  · intro hzero
    constructor
    · intro hcharge
      unfold drainBattery
      rw [if_neg hnle]
      simp only [hr, hzero]
      rw [if_pos trivial]
      unfold handleBatteryDepletion
      split_ifs with hc
      · rfl
      · exact absurd hcharge hc
    · intro hncharge
      unfold drainBattery
      rw [if_neg hnle]
      simp only [hr, hzero]
      rw [if_pos trivial]
      unfold handleBatteryDepletion
      split_ifs with hc
      · exact absurd hc hncharge
      · dsimp only
        split_ifs with hjob <;> rfl
  · unfold drainBattery
    rw [if_neg hnle]
    by_cases hz : max 0 (v.batteryLevel - d / v.batteryDrainRate) = 0
    · simp only [hz]
      rw [if_pos trivial]
      unfold handleBatteryDepletion
      split_ifs with hc
      · norm_num
      · dsimp only
        split_ifs with hjob <;> norm_num
    · rw [if_neg hz]
      exact le_max_left 0 _

/-- C4 witness: a concrete vehicle at level 80 with drain rate 4 drained by
0.001 km ends at exactly 79.99975 percent (a drop of exactly 0.00025). -/
theorem drainBattery_clamp_witness :
    (drainBattery testSimVehicle 0.001).batteryLevel = 79.99975 := by
  have hdr : testSimVehicle.batteryDrainRate = 4 := by
    norm_num [testSimVehicle, NewVehicle]
  have hlvl : testSimVehicle.batteryLevel = 80 := by
    norm_num [testSimVehicle, NewVehicle]
  have h := (drainBattery_clamp testSimVehicle 0.001 (by norm_num) hdr).1
  rw [hlvl] at h
  have h2 := h (by norm_num [lt_max_iff])
  rw [h2]
  norm_num

theorem rangeInv_handleBatteryDepletion (v : SimVehicle) (h : rangeInv v) :
    rangeInv (handleBatteryDepletion v) := by
  unfold handleBatteryDepletion
  split_ifs with hc
  · rfl
  · dsimp only
    split_ifs with hj
    · exact h
    · exact h

theorem rangeInv_drainBattery (v : SimVehicle) (km : ℝ) (h : rangeInv v) :
    rangeInv (drainBattery v km) := by
  unfold drainBattery
  split_ifs with hle
  · exact h
  · dsimp only
    split_ifs with hz
    · exact rangeInv_handleBatteryDepletion _ rfl
    · exact rfl

theorem rangeInv_moveTowardsTarget (speed : ℝ) (v : SimVehicle) (h : rangeInv v) :
    rangeInv (moveTowardsTarget speed v) := by
  unfold moveTowardsTarget
  split_ifs with hb
  · exact rangeInv_handleBatteryDepletion v h
  · dsimp only
    split_ifs with hd
    · exact h
    · exact rangeInv_drainBattery _ _ h

theorem rangeInv_moveAlongRoute (speed : ℝ) (v : SimVehicle) (h : rangeInv v) :
    rangeInv (moveAlongRoute speed v) := by
  unfold moveAlongRoute
  split_ifs with hb
  · exact rangeInv_handleBatteryDepletion v h
  · cases hroute : v.currentRoute with
    | none => exact rangeInv_moveTowardsTarget speed v h
    | some route =>
      dsimp only
      split_ifs with hempty hend hstep
      · exact rangeInv_moveTowardsTarget speed v h
      · exact h
      · exact rangeInv_drainBattery _ _ h
      · exact rangeInv_drainBattery _ _ h

theorem rangeInv_setRouteTarget (ext : OSRMCallResult) (targetLat targetLng : ℝ)
    (v : SimVehicle) (h : rangeInv v) :
    rangeInv (setRouteTarget ext targetLat targetLng v) := by
  unfold setRouteTarget
  dsimp only
  cases hgr : GetRoute ext v.locationLat v.locationLng targetLat targetLng
  all_goals exact h

theorem rangeInv_goToCharge (ext : OSRMCallResult) (v : SimVehicle) (h : rangeInv v) :
    rangeInv (goToCharge ext v) := by
  unfold goToCharge
  dsimp only
  exact rangeInv_setRouteTarget ext _ _ _ (by exact h)

theorem rangeInv_simulateCharging (speed : ℝ) (v : SimVehicle) (h : rangeInv v) :
    rangeInv (simulateCharging speed v) := by
  unfold simulateCharging
  split_ifs with hmv
  · dsimp only
    split_ifs with harr
    · exact rangeInv_moveAlongRoute speed v h
    · exact rangeInv_moveAlongRoute speed v h
  all_goals first
    | rfl
    | exact h

theorem rangeInv_simulateMaintenance (ext : OSRMCallResult) (v : SimVehicle)
    (h : rangeInv v) : rangeInv (simulateMaintenance ext v) := by
  unfold simulateMaintenance
  split_ifs with hs
  · exact rangeInv_goToCharge ext _ rfl
  · exact h

/-- C5: every battery-changing simulator operation re-establishes or
preserves the invariant that `battery_range_km` equals
`battery_level * batteryDrainRate`; no operation mutates the range
independently of the level. -/
theorem batteryRange_invariant (v : SimVehicle) (km speed : ℝ) (ext : OSRMCallResult)
    (h : rangeInv v) :
    rangeInv (drainBattery v km) ∧ rangeInv (simulateCharging speed v) ∧
    rangeInv (handleBatteryDepletion v) ∧ rangeInv (simulateMaintenance ext v) :=
  ⟨rangeInv_drainBattery v km h, rangeInv_simulateCharging speed v h,
   rangeInv_handleBatteryDepletion v h, rangeInv_simulateMaintenance ext v h⟩

/-- C5 witness: the invariant holds after each operation on a concrete
freshly created vehicle. -/
theorem batteryRange_invariant_witness :
    rangeInv (drainBattery testSimVehicle 1) ∧
    rangeInv (simulateCharging 0.00035 testSimVehicle) ∧
    rangeInv (handleBatteryDepletion testSimVehicle) ∧
    rangeInv (simulateMaintenance (OSRMCallResult.netError "down") testSimVehicle) :=
  batteryRange_invariant testSimVehicle 1 0.00035 (OSRMCallResult.netError "down") rfl

theorem bounds_handleBatteryDepletion (v : SimVehicle) (h : batteryBounds v) :
    batteryBounds (handleBatteryDepletion v) := by
  unfold handleBatteryDepletion
  split_ifs with hc
  · exact ⟨by norm_num, by norm_num⟩
  · dsimp only
    split_ifs with hj
    · exact h
    · exact h

theorem clamped_level_bounds (b km r : ℝ) (_hb0 : 0 ≤ b) (hb1 : b ≤ 100) (hr : 0 < r)
    (hkm : 0 < km) : 0 ≤ max 0 (b - km / r) ∧ max 0 (b - km / r) ≤ 100 := by
  constructor
  · exact le_max_left 0 _
  · apply max_le (by norm_num)
    have hdiv : 0 < km / r := div_pos hkm hr
    linarith

theorem bounds_drainBattery (v : SimVehicle) (km : ℝ) (h : batteryBounds v)
    (hr : 0 < v.batteryDrainRate) : batteryBounds (drainBattery v km) := by
  unfold drainBattery
  split_ifs with hle
  · exact h
  · have hkm : 0 < km := lt_of_not_le hle
    have hcl := clamped_level_bounds v.batteryLevel km v.batteryDrainRate h.1 h.2 hr hkm
    dsimp only
    split_ifs with hz
    · exact bounds_handleBatteryDepletion _ ⟨hcl.1, hcl.2⟩
    · exact ⟨hcl.1, hcl.2⟩

theorem bounds_moveTowardsTarget (speed : ℝ) (v : SimVehicle) (h : batteryBounds v)
    (hr : 0 < v.batteryDrainRate) : batteryBounds (moveTowardsTarget speed v) := by
  unfold moveTowardsTarget
  split_ifs with hb
  · exact bounds_handleBatteryDepletion v h
  · dsimp only
    split_ifs with hd
    · exact h
    · exact bounds_drainBattery _ _ h hr

theorem bounds_moveAlongRoute (speed : ℝ) (v : SimVehicle) (h : batteryBounds v)
    (hr : 0 < v.batteryDrainRate) : batteryBounds (moveAlongRoute speed v) := by
  unfold moveAlongRoute
  split_ifs with hb
  · exact bounds_handleBatteryDepletion v h
  · cases hroute : v.currentRoute with
    | none => exact bounds_moveTowardsTarget speed v h hr
    | some route =>
      dsimp only
      split_ifs with hempty hend hstep
      · exact bounds_moveTowardsTarget speed v h hr
      · exact h
      · exact bounds_drainBattery _ _ h hr
      · exact bounds_drainBattery _ _ h hr

theorem bounds_simulateCharging (speed : ℝ) (v : SimVehicle) (h : batteryBounds v)
    (hr : 0 < v.batteryDrainRate) : batteryBounds (simulateCharging speed v) := by
  unfold simulateCharging
  split_ifs with hmv hch hlt
  · dsimp only
    split_ifs with harr
    · exact bounds_moveAlongRoute speed v h hr
    · exact bounds_moveAlongRoute speed v h hr
  · constructor
    · show 0 ≤ v.batteryLevel + 2
      linarith [h.1]
    · show v.batteryLevel + 2 ≤ 100
      linarith
  · exact h
  · exact h

theorem setRouteTarget_batteryLevel (ext : OSRMCallResult) (targetLat targetLng : ℝ)
    (v : SimVehicle) : (setRouteTarget ext targetLat targetLng v).batteryLevel =
      v.batteryLevel := by
  unfold setRouteTarget
  dsimp only
  cases hgr : GetRoute ext v.locationLat v.locationLng targetLat targetLng <;> rfl

theorem goToCharge_batteryLevel (ext : OSRMCallResult) (v : SimVehicle) :
    (goToCharge ext v).batteryLevel = v.batteryLevel := by
  unfold goToCharge
  dsimp only
  exact setRouteTarget_batteryLevel ext _ _ _

theorem bounds_simulateMaintenance (ext : OSRMCallResult) (v : SimVehicle)
    (h : batteryBounds v) : batteryBounds (simulateMaintenance ext v) := by
  unfold simulateMaintenance
  split_ifs with hs
  · constructor
    · rw [goToCharge_batteryLevel]
      norm_num
    · rw [goToCharge_batteryLevel]
      norm_num
  · exact h

/-- C9: the simulator keeps battery levels inside 0..100: creation draws a
level in 60..99, draining clamps at 0 (with depletion recovery landing at 5
or 0), the charging step only adds 2 points below level 95 and so never
passes 97, maintenance recovery sets 20, and every one of these operations
maps a level in 0..100 to a level in 0..100. -/
theorem batteryLevel_bounds (id region : String) (batteryDraw : ℕ)
    (startLat startLng : ℝ) (v : SimVehicle) (km speed : ℝ) (ext : OSRMCallResult) :
    (batteryDraw < 40 →
      60 ≤ (NewVehicle id region batteryDraw startLat startLng).batteryLevel ∧
      (NewVehicle id region batteryDraw startLat startLng).batteryLevel < 100) ∧
    (batteryBounds v → 0 < v.batteryDrainRate →
      batteryBounds (drainBattery v km) ∧
      batteryBounds (simulateCharging speed v) ∧
      batteryBounds (handleBatteryDepletion v) ∧
      batteryBounds (simulateMaintenance ext v)) ∧
    (v.jobPhase = "charging" →
      (v.batteryLevel < 95 →
        (simulateCharging speed v).batteryLevel = v.batteryLevel + 2 ∧
        (simulateCharging speed v).batteryLevel < 97) ∧
      (95 ≤ v.batteryLevel →
        (simulateCharging speed v).batteryLevel = v.batteryLevel)) := by
  refine ⟨?_, ?_, ?_⟩
  · intro hdraw
    have hcast : (batteryDraw : ℝ) < 40 := by exact_mod_cast hdraw
    constructor
    · show (60:ℝ) ≤ (batteryDraw : ℝ) + 60
      have hnn : (0:ℝ) ≤ (batteryDraw : ℝ) := Nat.cast_nonneg batteryDraw
      linarith
    · show (batteryDraw : ℝ) + 60 < 100
      linarith
  · intro h hr
    exact ⟨bounds_drainBattery v km h hr, bounds_simulateCharging speed v h hr,
      bounds_handleBatteryDepletion v h, bounds_simulateMaintenance ext v h⟩
  · intro hph
    have hne : ¬ (v.isMoving = true ∧ v.jobPhase = "going_to_charge") := by
      intro hcon
      rw [hph] at hcon
      exact absurd hcon.2 (by simp)
    constructor
    · intro hlt
      unfold simulateCharging
      rw [if_neg hne, if_pos hph, if_pos hlt]
      exact ⟨rfl, by show v.batteryLevel + 2 < 97; linarith⟩
    · intro hge
      unfold simulateCharging
      rw [if_neg hne, if_pos hph, if_neg (not_lt.mpr hge)]

/-- C9 witness: all four operations keep a concrete in-range vehicle in
range. -/
theorem batteryLevel_bounds_witness :
    batteryBounds (drainBattery testSimVehicle 500) ∧
    batteryBounds (simulateCharging 0.00035 testSimVehicle) ∧
    batteryBounds (handleBatteryDepletion testSimVehicle) ∧
    batteryBounds (simulateMaintenance (OSRMCallResult.netError "down") testSimVehicle) := by
  have h := (batteryLevel_bounds "veh-1" "us-west-2" 20 45.52 (-122.67) testSimVehicle
    500 0.00035 (OSRMCallResult.netError "down")).2.1
  exact h ⟨by norm_num [testSimVehicle, NewVehicle], by norm_num [testSimVehicle, NewVehicle]⟩
    (by norm_num [testSimVehicle, NewVehicle])

theorem list_range_11 : List.range 11 = [0, 1, 2, 3, 4, 5, 6, 7, 8, 9, 10] := by rfl

/-- C6: on every failing external routing outcome (network error, parse
error, or an empty route list) `GetRoute` returns, with no error, exactly
the straight-line fallback: 11 points with point i at interpolation fraction
i/10 (so the first point is the start and the last is the end), distance
equal to the Haversine distance times 1000 and duration equal to
distance / 13.89; the fallback itself is total and never fails. -/
theorem getRoute_fallback (call : OSRMCallResult) (startLat startLng endLat endLng : ℝ)
    (hfail : call.isFailure = true) :
    GetRoute call startLat startLng endLat endLng =
      Except.ok (createStraightLineRoute startLat startLng endLat endLng) ∧
    (createStraightLineRoute startLat startLng endLat endLng).points.length = 11 ∧
    (∀ i, i < 11 →
      (createStraightLineRoute startLat startLng endLat endLng).points.getD i
          { lat := 0, lng := 0 } =
        { lat := startLat + (endLat - startLat) * ((i : ℝ) / 10)
          lng := startLng + (endLng - startLng) * ((i : ℝ) / 10) }) ∧
    (createStraightLineRoute startLat startLng endLat endLng).points.head? =
      some { lat := startLat, lng := startLng } ∧
    (createStraightLineRoute startLat startLng endLat endLng).points.getLast? =
      some { lat := endLat, lng := endLng } ∧
    (createStraightLineRoute startLat startLng endLat endLng).distance =
      haversineDistance startLat startLng endLat endLng * 1000 ∧
    (createStraightLineRoute startLat startLng endLat endLng).duration =
      (createStraightLineRoute startLat startLng endLat endLng).distance / 13.89 := by
  refine ⟨?_, ?_, ?_, ?_, ?_, rfl, rfl⟩
  · cases call with
    | netError msg => rfl
    | parseError msg => rfl
    | ok resp =>
      have hempty : resp.routes = [] := by
        have := hfail
        unfold OSRMCallResult.isFailure at this
        exact List.isEmpty_iff.mp this
      unfold GetRoute
      dsimp only
      rw [hempty]
  · unfold createStraightLineRoute
    rw [list_range_11]
    rfl
  · intro i hi
    unfold createStraightLineRoute
    rw [list_range_11]
    interval_cases i <;>
      simp only [List.getD, List.map, List.get?, List.getD_cons_zero, List.getD_cons_succ] <;>
      norm_num
  · unfold createStraightLineRoute
    rw [list_range_11]
    simp only [List.map, List.head?]
    norm_num
  · unfold createStraightLineRoute
    rw [list_range_11]
    simp only [List.map, List.getLast?]
    norm_num

/-- C6 witness: a concrete network failure yields exactly the fallback
route. -/
theorem getRoute_fallback_witness :
    GetRoute (OSRMCallResult.netError "connection refused") 45.52 (-122.67) 45.53 (-122.66) =
      Except.ok (createStraightLineRoute 45.52 (-122.67) 45.53 (-122.66)) :=
  (getRoute_fallback (OSRMCallResult.netError "connection refused")
    45.52 (-122.67) 45.53 (-122.66) rfl).1

theorem lookup_setJobAssoc_self (k : String) (j1 : Job) :
    ∀ st : JobState, (setJobAssoc st k j1).lookup k = (st.lookup k).map fun _ => j1 := by
  intro st
  induction st with
  | nil => rfl
  | cons p tl ih =>
    rcases p with ⟨k1, j⟩
    by_cases hk : k1 = k
    · subst hk
      have h1 : setJobAssoc ((k1, j) :: tl) k1 j1 = (k1, j1) :: setJobAssoc tl k1 j1 := by
        simp [setJobAssoc]
      rw [h1]
      simp [List.lookup]
    · have hne : (k == k1) = false := beq_eq_false_iff_ne.mpr (Ne.symm hk)
      have h1 : setJobAssoc ((k1, j) :: tl) k j1 = (k1, j) :: setJobAssoc tl k j1 := by
        simp [setJobAssoc, hk]
      rw [h1]
      simp [List.lookup, hne, ih]

/-- C3: `CompleteJob` errors exactly when the job is missing or its status
is outside assigned and in-progress (so in particular on a pending job); on
every error the store is unchanged; on success the stored job gets status
completed and a stamped completion time, everything else untouched. -/
theorem completeJob_spec (now : ℕ) (jobID : String) (jobs : JobState) :
    ((∃ e, (CompleteJob now jobID jobs).1 = Except.error e) ↔
      (jobs.lookup jobID = none ∨
        ∃ j, jobs.lookup jobID = some j ∧
          j.status ≠ "assigned" ∧ j.status ≠ "in_progress")) ∧
    ((∃ e, (CompleteJob now jobID jobs).1 = Except.error e) →
      (CompleteJob now jobID jobs).2 = jobs) ∧
    (∀ j, jobs.lookup jobID = some j →
      (j.status = "assigned" ∨ j.status = "in_progress") →
      (CompleteJob now jobID jobs).1 = Except.ok () ∧
      (CompleteJob now jobID jobs).2.lookup jobID =
        some { j with status := "completed", completedAt := some now }) := by
  rcases hl : jobs.lookup jobID with _ | j
  · have hc : CompleteJob now jobID jobs =
        (Except.error ("job " ++ jobID ++ " not found"), jobs) := by
      unfold CompleteJob
      rw [hl]
    refine ⟨⟨fun _ => Or.inl rfl, fun _ => ⟨_, by rw [hc]⟩⟩, fun _ => by rw [hc], ?_⟩
    intro j hj
    exact fun _ => Option.noConfusion hj
  · by_cases hbad : j.status ≠ "assigned" ∧ j.status ≠ "in_progress"
    · have hc : CompleteJob now jobID jobs =
          (Except.error
            ("job " ++ jobID ++ " is not in progress, current status: " ++ j.status),
            jobs) := by
        unfold CompleteJob
        rw [hl]
        dsimp only
        rw [if_pos hbad]
      refine ⟨⟨fun _ => Or.inr ⟨j, rfl, hbad⟩, fun _ => ⟨_, by rw [hc]⟩⟩,
        fun _ => by rw [hc], ?_⟩
      intro j2 hj2 hgood
      obtain rfl := Option.some.inj hj2
      rcases hgood with h | h
      · exact absurd h hbad.1
      · exact absurd h hbad.2
    · have hgood : j.status = "assigned" ∨ j.status = "in_progress" := by
        by_contra hcon
        push_neg at hcon
        exact hbad ⟨hcon.1, hcon.2⟩
      have hupd : UpdateJobStatus now jobID "completed" j.assignedVehicleID jobs =
          Except.ok (setJobAssoc jobs jobID ({ j with
            status := "completed"
            assignedVehicleID := j.assignedVehicleID
            assignedAt := if ("completed" : String) = "assigned" then some now
              else j.assignedAt
            completedAt := if ("completed" : String) = "completed" then some now
              else j.completedAt })) := by
        unfold UpdateJobStatus
        rw [hl]
      have hj1 : ({ j with
            status := "completed"
            assignedVehicleID := j.assignedVehicleID
            assignedAt := if ("completed" : String) = "assigned" then some now
              else j.assignedAt
            completedAt := if ("completed" : String) = "completed" then some now
              else j.completedAt } : Job) =
          { j with status := "completed", completedAt := some now } := by
        simp
      have hc : CompleteJob now jobID jobs = (Except.ok (), setJobAssoc jobs jobID
          ({ j with status := "completed", completedAt := some now })) := by
        unfold CompleteJob
        rw [hl]
        dsimp only
        rw [if_neg hbad, hupd, hj1]
      refine ⟨⟨?_, ?_⟩, ?_, ?_⟩
      · rintro ⟨e, he⟩
        rw [hc] at he
        simp at he
      · rintro (h | ⟨j2, hj2, hbad2⟩)
        · exact Option.noConfusion h
        · obtain rfl := Option.some.inj hj2
          rcases hgood with h | h
          · exact absurd h hbad2.1
          · exact absurd h hbad2.2
      · rintro ⟨e, he⟩
        rw [hc] at he
        simp at he
      · intro j2 hj2 _
        obtain rfl := Option.some.inj hj2
        constructor
        · rw [hc]
        · rw [hc]
          dsimp only
          rw [lookup_setJobAssoc_self, hl]
          rfl

/-- C3 witness: completing a concrete job still in status pending fails and
leaves the store unchanged. -/
theorem completeJob_spec_witness :
    (∃ e, (CompleteJob 5 "ride-1" [("ride-1", pendingTestJob)]).1 = Except.error e) ∧
    (CompleteJob 5 "ride-1" [("ride-1", pendingTestJob)]).2 =
      [("ride-1", pendingTestJob)] := by
  have h := completeJob_spec 5 "ride-1" [("ride-1", pendingTestJob)]
  have herr := h.1.mpr (Or.inr ⟨pendingTestJob, by simp [List.lookup],
    by simp [pendingTestJob], by simp [pendingTestJob]⟩)
  exact ⟨herr, h.2.1 herr⟩

theorem createdAt_update_self (now : ℕ) (job : Job) (h : job.createdAt = now) :
    ({ job with createdAt := now } : Job) = job := by
  rw [← h]

theorem findNearest_ok_mem (vs : List StoredVehicle) (region : String) (p q t : ℝ)
    (v : StoredVehicle) (h : FindNearestAvailableVehicle vs region p q t = Except.ok v) :
    v ∈ vs := by
  have heq := findNearestAvailableVehicle_eq_match vs region p q t
  rw [heq] at h
  rcases hfst : (findBest p q t (getVehiclesByRegionAndStatus vs region "available")
      (none, maxFloat64)).1 with _ | b
  · rw [hfst] at h; cases h
  · rw [hfst] at h
    obtain rfl : b = v := by simpa using h
    obtain ⟨c1, _, _, _, _⟩ := findBest_go p q t
      (getVehiclesByRegionAndStatus vs region "available") none maxFloat64
      (by intro b hb; cases hb) (by intro _; rfl) _ rfl
    rcases c1 b hfst with hno | ⟨hm, _⟩
    · cases hno
    · exact ((mem_getVehiclesByRegionAndStatus vs region "available" b).mp hm).1

theorem updateVehicleStatus_ok (now : ℕ) (vid status : String) (jobID : Option String)
    (vs : List StoredVehicle) (v : StoredVehicle) (hv : v ∈ vs) (hid : v.id = vid) :
    UpdateVehicleStatus now vid status jobID vs =
      Except.ok (vs.map fun w =>
        if w.id = vid then { w with status := status, currentJobID := jobID, lastUpdated := now }
        else w) := by
  unfold UpdateVehicleStatus
  rw [if_pos]
  exact List.any_eq_true.mpr ⟨v, hv, by simp [hid]⟩

theorem busy_after_update (now : ℕ) (vid : String) (jobID : Option String)
    (vs : List StoredVehicle) :
    ∀ w ∈ (vs.map fun w =>
      if w.id = vid then { w with status := "busy", currentJobID := jobID, lastUpdated := now }
      else w), w.id = vid → w.status = "busy" ∧ w.currentJobID = jobID := by
  intro w hw hwid
  rcases List.mem_map.mp hw with ⟨u, hu, hmap⟩
  by_cases hid : u.id = vid
  · rw [if_pos hid] at hmap
    subst hmap
    exact ⟨rfl, rfl⟩
  · rw [if_neg hid] at hmap
    subst hmap
    exact absurd hwid hid

theorem assignJob_error_jobs (now : ℕ) (job : Job) (jobs : JobState)
    (fleet : List StoredVehicle) :
    ∀ e, (assignJob now job jobs fleet).1 = Except.error e →
      (assignJob now job jobs fleet).2.1 = jobs := by
  unfold assignJob
  rcases h1 : FindNearestAvailableVehicle fleet job.region job.pickupLat job.pickupLng
      job.estimatedDistanceKm with e1 | v
  · intro e _; rfl
  · dsimp only
    rcases h2 : UpdateVehicleStatus now v.id "busy" (some job.id) fleet with e2 | fleet1
    · intro e _; rfl
    · dsimp only
      rcases h3 : UpdateJobStatus now job.id "assigned" (some v.id) jobs with e3 | jobs1
      · intro e _; rfl
      · intro e he
        exact absurd he (by simp)

theorem createJob_fresh (now : ℕ) (job : Job) (jobs : JobState)
    (hfresh : jobs.lookup job.id = none) (hca : job.createdAt = now) :
    CreateJob now job jobs = Except.ok ((job.id, job) :: jobs) := by
  unfold CreateJob
  rw [hfresh]
  rw [if_neg (by simp)]
  rw [createdAt_update_self now job hca]

theorem updateJobStatus_head (now : ℕ) (job : Job) (jobs : JobState) (vid : String) :
    UpdateJobStatus now job.id "assigned" (some vid) ((job.id, job) :: jobs) =
      Except.ok (setJobAssoc ((job.id, job) :: jobs) job.id
        { job with
          status := "assigned"
          assignedVehicleID := some vid
          assignedAt := some now }) := by
  unfold UpdateJobStatus
  have hl : ((job.id, job) :: jobs).lookup job.id = some job := by simp [List.lookup]
  rw [hl]
  simp

theorem createAndAssign_spec (now : ℕ) (job : Job) (jobs : JobState)
    (fleet : List StoredVehicle)
    (hfresh : jobs.lookup job.id = none) (hca : job.createdAt = now) :
    (createAndAssign now job jobs fleet).1 = Except.ok job ∧
    (∀ e, (assignJob now job ((job.id, job) :: jobs) fleet).1 = Except.error e →
      (createAndAssign now job jobs fleet).2.1.lookup job.id = some job) ∧
    (∀ v, FindNearestAvailableVehicle fleet job.region job.pickupLat job.pickupLng
        job.estimatedDistanceKm = Except.ok v →
      (createAndAssign now job jobs fleet).2.1.lookup job.id =
        some { job with
          status := "assigned"
          assignedVehicleID := some v.id
          assignedAt := some now } ∧
      ∀ w ∈ (createAndAssign now job jobs fleet).2.2, w.id = v.id →
        w.status = "busy" ∧ w.currentJobID = some job.id) := by
  have hcj := createJob_fresh now job jobs hfresh hca
  have hred : createAndAssign now job jobs fleet =
      (Except.ok job, (assignJob now job ((job.id, job) :: jobs) fleet).2.1,
        (assignJob now job ((job.id, job) :: jobs) fleet).2.2) := by
    unfold createAndAssign
    rw [hcj]
  refine ⟨by rw [hred], ?_, ?_⟩
  · intro e he
    have hjobs := assignJob_error_jobs now job ((job.id, job) :: jobs) fleet e he
    rw [hred]
    dsimp only
    rw [hjobs]
    simp [List.lookup]
  · intro v hv
    have hvmem := findNearest_ok_mem fleet job.region job.pickupLat job.pickupLng
      job.estimatedDistanceKm v hv
    have hupdv := updateVehicleStatus_ok now v.id "busy" (some job.id) fleet v hvmem rfl
    have hupdj := updateJobStatus_head now job jobs v.id
    have hassign : assignJob now job ((job.id, job) :: jobs) fleet =
        (Except.ok (),
          setJobAssoc ((job.id, job) :: jobs) job.id
            { job with
              status := "assigned"
              assignedVehicleID := some v.id
              assignedAt := some now },
          fleet.map fun w =>
            if w.id = v.id then
              { w with status := "busy", currentJobID := some job.id, lastUpdated := now }
            else w) := by
      unfold assignJob
      rw [hv]
      dsimp only
      rw [hupdv]
      dsimp only
      rw [hupdj]
    rw [hred]
    dsimp only
    rw [hassign]
    dsimp only
    constructor
    · rw [lookup_setJobAssoc_self]
      simp [List.lookup]
    · exact busy_after_update now v.id (some job.id) fleet

theorem mkRideJob_fields (now jobIDNum : ℕ) (customerID region : String)
    (pLat pLng dLat dLng : ℝ) :
    (mkRideJob now jobIDNum customerID region pLat pLng dLat dLng).id =
      "ride-" ++ toString jobIDNum ∧
    (mkRideJob now jobIDNum customerID region pLat pLng dLat dLng).status = "pending" ∧
    (mkRideJob now jobIDNum customerID region pLat pLng dLat dLng).assignedVehicleID = none ∧
    (mkRideJob now jobIDNum customerID region pLat pLng dLat dLng).createdAt = now ∧
    (mkRideJob now jobIDNum customerID region pLat pLng dLat dLng).region = region ∧
    (mkRideJob now jobIDNum customerID region pLat pLng dLat dLng).pickupLat = pLat ∧
    (mkRideJob now jobIDNum customerID region pLat pLng dLat dLng).pickupLng = pLng := by
  unfold mkRideJob CalculateFare
  rw [if_pos rfl]
  exact ⟨rfl, rfl, rfl, rfl, rfl, rfl, rfl⟩

theorem mkDeliveryJob_fields (now jobIDNum : ℕ) (customerID region : String)
    (pLat pLng dLat dLng : ℝ) (details : Option DeliveryDetails) :
    (mkDeliveryJob now jobIDNum customerID region pLat pLng dLat dLng details).id =
      "delivery-" ++ toString jobIDNum ∧
    (mkDeliveryJob now jobIDNum customerID region pLat pLng dLat dLng details).status =
      "pending" ∧
    (mkDeliveryJob now jobIDNum customerID region pLat pLng dLat dLng
      details).assignedVehicleID = none ∧
    (mkDeliveryJob now jobIDNum customerID region pLat pLng dLat dLng details).createdAt =
      now ∧
    (mkDeliveryJob now jobIDNum customerID region pLat pLng dLat dLng details).region =
      region ∧
    (mkDeliveryJob now jobIDNum customerID region pLat pLng dLat dLng details).pickupLat =
      pLat ∧
    (mkDeliveryJob now jobIDNum customerID region pLat pLng dLat dLng details).pickupLng =
      pLng := by
  unfold mkDeliveryJob CalculateFare
  rw [if_neg (by simp)]
  exact ⟨rfl, rfl, rfl, rfl, rfl, rfl, rfl⟩

/-- C2: with a fresh job id, ride and delivery creation return the created
job with no error regardless of vehicle availability; when the assignment
attempt fails (the dispatcher finds no vehicle, the fleet assignment fails,
or the job-status update fails) the stored job keeps status pending with no
assigned vehicle; when the dispatcher finds a vehicle, the stored job is
assigned to it and that vehicle becomes busy holding this job id. -/
theorem createJob_assignment_spec (now jobIDNum : ℕ) (customerID region : String)
    (pickupLat pickupLng destLat destLng : ℝ) (details : Option DeliveryDetails)
    (jobs : JobState) (fleet : List StoredVehicle) :
    (jobs.lookup ("ride-" ++ toString jobIDNum) = none →
      (CreateRideJob now jobIDNum customerID region pickupLat pickupLng destLat destLng
          jobs fleet).1 = Except.ok
        (mkRideJob now jobIDNum customerID region pickupLat pickupLng destLat destLng) ∧
      (mkRideJob now jobIDNum customerID region pickupLat pickupLng destLat destLng).status =
        "pending" ∧
      (mkRideJob now jobIDNum customerID region pickupLat pickupLng destLat
        destLng).assignedVehicleID = none ∧
      (∀ e, (assignJob now
          (mkRideJob now jobIDNum customerID region pickupLat pickupLng destLat destLng)
          (("ride-" ++ toString jobIDNum,
            mkRideJob now jobIDNum customerID region pickupLat pickupLng destLat destLng) ::
            jobs) fleet).1 = Except.error e →
        (CreateRideJob now jobIDNum customerID region pickupLat pickupLng destLat destLng
            jobs fleet).2.1.lookup ("ride-" ++ toString jobIDNum) =
          some (mkRideJob now jobIDNum customerID region pickupLat pickupLng destLat
            destLng)) ∧
      (∀ v, FindNearestAvailableVehicle fleet region pickupLat pickupLng
          (mkRideJob now jobIDNum customerID region pickupLat pickupLng destLat
            destLng).estimatedDistanceKm = Except.ok v →
        (CreateRideJob now jobIDNum customerID region pickupLat pickupLng destLat destLng
            jobs fleet).2.1.lookup ("ride-" ++ toString jobIDNum) =
          some { mkRideJob now jobIDNum customerID region pickupLat pickupLng destLat
              destLng with
            status := "assigned"
            assignedVehicleID := some v.id
            assignedAt := some now } ∧
        ∀ w ∈ (CreateRideJob now jobIDNum customerID region pickupLat pickupLng destLat
            destLng jobs fleet).2.2, w.id = v.id →
          w.status = "busy" ∧ w.currentJobID = some ("ride-" ++ toString jobIDNum))) ∧
    (jobs.lookup ("delivery-" ++ toString jobIDNum) = none →
      (CreateDeliveryJob now jobIDNum customerID region pickupLat pickupLng destLat destLng
          details jobs fleet).1 = Except.ok
        (mkDeliveryJob now jobIDNum customerID region pickupLat pickupLng destLat destLng
          details) ∧
      (mkDeliveryJob now jobIDNum customerID region pickupLat pickupLng destLat destLng
        details).status = "pending" ∧
      (mkDeliveryJob now jobIDNum customerID region pickupLat pickupLng destLat destLng
        details).assignedVehicleID = none ∧
      (∀ e, (assignJob now
          (mkDeliveryJob now jobIDNum customerID region pickupLat pickupLng destLat destLng
            details)
          (("delivery-" ++ toString jobIDNum,
            mkDeliveryJob now jobIDNum customerID region pickupLat pickupLng destLat destLng
              details) :: jobs) fleet).1 = Except.error e →
        (CreateDeliveryJob now jobIDNum customerID region pickupLat pickupLng destLat
            destLng details jobs fleet).2.1.lookup ("delivery-" ++ toString jobIDNum) =
          some (mkDeliveryJob now jobIDNum customerID region pickupLat pickupLng destLat
            destLng details)) ∧
      (∀ v, FindNearestAvailableVehicle fleet region pickupLat pickupLng
          (mkDeliveryJob now jobIDNum customerID region pickupLat pickupLng destLat destLng
            details).estimatedDistanceKm = Except.ok v →
        (CreateDeliveryJob now jobIDNum customerID region pickupLat pickupLng destLat
            destLng details jobs fleet).2.1.lookup ("delivery-" ++ toString jobIDNum) =
          some { mkDeliveryJob now jobIDNum customerID region pickupLat pickupLng destLat
              destLng details with
            status := "assigned"
            assignedVehicleID := some v.id
            assignedAt := some now } ∧
        ∀ w ∈ (CreateDeliveryJob now jobIDNum customerID region pickupLat pickupLng destLat
            destLng details jobs fleet).2.2, w.id = v.id →
          w.status = "busy" ∧
            w.currentJobID = some ("delivery-" ++ toString jobIDNum))) := by
  constructor
  · intro hfresh
    obtain ⟨hid, hst, hveh, hca, hreg, hplat, hplng⟩ :=
      mkRideJob_fields now jobIDNum customerID region pickupLat pickupLng destLat destLng
    have hfresh2 : jobs.lookup
        (mkRideJob now jobIDNum customerID region pickupLat pickupLng destLat destLng).id =
        none := by
      rw [hid]; exact hfresh
    have hspec := createAndAssign_spec now
      (mkRideJob now jobIDNum customerID region pickupLat pickupLng destLat destLng)
      jobs fleet hfresh2 hca
    rw [hreg, hplat, hplng, hid] at hspec
    exact ⟨hspec.1, hst, hveh, hspec.2.1, hspec.2.2⟩
  · intro hfresh
    obtain ⟨hid, hst, hveh, hca, hreg, hplat, hplng⟩ :=
      mkDeliveryJob_fields now jobIDNum customerID region pickupLat pickupLng destLat
        destLng details
    have hfresh2 : jobs.lookup
        (mkDeliveryJob now jobIDNum customerID region pickupLat pickupLng destLat destLng
          details).id = none := by
      rw [hid]; exact hfresh
    have hspec := createAndAssign_spec now
      (mkDeliveryJob now jobIDNum customerID region pickupLat pickupLng destLat destLng
        details) jobs fleet hfresh2 hca
    rw [hreg, hplat, hplng, hid] at hspec
    exact ⟨hspec.1, hst, hveh, hspec.2.1, hspec.2.2⟩

/-- C2 witness: creating a ride job over an empty fleet returns the job with
no error and leaves it stored as pending. -/
theorem createJob_assignment_witness :
    (CreateRideJob 0 1 "customer-123" "us-west-2" 45.52 (-122.67) 45.53 (-122.66)
        [] []).1 =
      Except.ok (mkRideJob 0 1 "customer-123" "us-west-2" 45.52 (-122.67) 45.53 (-122.66)) ∧
    (CreateRideJob 0 1 "customer-123" "us-west-2" 45.52 (-122.67) 45.53 (-122.66)
        [] []).2.1.lookup ("ride-" ++ toString 1) =
      some (mkRideJob 0 1 "customer-123" "us-west-2" 45.52 (-122.67) 45.53 (-122.66)) := by
  have h := (createJob_assignment_spec 0 1 "customer-123" "us-west-2" 45.52 (-122.67) 45.53
    (-122.66) none [] []).1 rfl
  refine ⟨h.1, ?_⟩
  exact h.2.2.2.1
    "no available vehicle found: no available vehicle found with sufficient battery for trip"
    rfl

theorem delayFrom_one_eq_delaySeq : ∀ n, delayFrom 1 n = delaySeq n := by
  have hshift : ∀ n (d : ℚ), delayFrom d (n + 1) = min (delayFrom d n * 1.5) 30 := by
    intro n
    induction n with
    | zero => intro d; rfl
    | succ m ih =>
      intro d
      show delayFrom (min (d * 1.5) 30) (m + 1) = _
      rw [ih (min (d * 1.5) 30)]
      rfl
  intro n
  induction n with
  | zero => rfl
  | succ m ih =>
    rw [hshift m 1, ih]
    rfl

theorem registerLoop_sleeps (fails : ℕ → Bool) (dur : ℕ → ℚ) :
    ∀ (rem attempt : ℕ) (delay elapsed : ℚ),
      (registerLoop fails dur rem attempt delay elapsed).2 =
        (List.range (registerLoop fails dur rem attempt delay elapsed).2.length).map
          (delayFrom delay) ∧
      (registerLoop fails dur rem attempt delay elapsed).2.length ≤ rem - 1 := by
  intro rem
  induction rem with
  | zero => intro attempt delay elapsed; exact ⟨rfl, Nat.le_refl 0⟩
  | succ rem2 ih =>
    intro attempt delay elapsed
    simp only [registerLoop]
    split_ifs with h1 h2 h3
    · exact ⟨rfl, Nat.zero_le _⟩
    · exact ⟨rfl, Nat.zero_le _⟩
    · exact ⟨rfl, Nat.zero_le _⟩
    · obtain ⟨ihl, ihlen⟩ := ih (attempt + 1) (min (delay * 1.5) 30)
        (elapsed + dur attempt + delay)
      constructor
      · show delay :: (registerLoop fails dur rem2 (attempt + 1) (min (delay * 1.5) 30)
            (elapsed + dur attempt + delay)).2 = _
        rw [ihl]
        simp only [List.length_cons, List.length_map, List.length_range]
        rw [List.range_succ_eq_map, List.map_cons, List.map_map]
        rfl
      · show (delay :: _).length ≤ rem2 + 1 - 1
        simp only [List.length_cons]
        omega

theorem registerLoop_success (fails : ℕ → Bool) (dur : ℕ → ℚ) :
    ∀ (rem attempt : ℕ) (delay elapsed : ℚ) (k : ℕ),
      (registerLoop fails dur rem attempt delay elapsed).1 = RegOutcome.success k →
      attempt ≤ k ∧ k < attempt + rem ∧ fails k = false ∧
        ∀ j, attempt ≤ j → j < k → fails j = true := by
  intro rem
  induction rem with
  | zero =>
    intro attempt delay elapsed k h
    cases h
  | succ rem2 ih =>
    intro attempt delay elapsed k h
    simp only [registerLoop] at h
    split_ifs at h with h1 h2 h3
    · dsimp only at h
      obtain rfl : attempt = k := by cases h; rfl
      refine ⟨Nat.le_refl _, by omega, h1, ?_⟩
      intro j hj1 hj2
      omega
    · dsimp only at h
      have hfa : fails attempt = true := by
        revert h1
        cases fails attempt <;> simp
      obtain ⟨ha1, ha2, ha3, ha4⟩ := ih (attempt + 1) (min (delay * 1.5) 30)
        (elapsed + dur attempt + delay) k h
      refine ⟨by omega, by omega, ha3, ?_⟩
      intro j hj1 hj2
      rcases Nat.eq_or_lt_of_le hj1 with rfl | hj3
      · exact hfa
      · exact ha4 j (by omega) hj2

theorem registerLoop_allfail (fails : ℕ → Bool) (dur : ℕ → ℚ) :
    ∀ (rem attempt : ℕ) (delay elapsed : ℚ),
      (∀ j, attempt ≤ j → j < attempt + rem → fails j = true) →
      ((registerLoop fails dur rem attempt delay elapsed).1 = RegOutcome.exhausted ∨
        (registerLoop fails dur rem attempt delay elapsed).1 = RegOutcome.timeoutErr) := by
  intro rem
  induction rem with
  | zero => intro attempt delay elapsed _; exact Or.inl rfl
  | succ rem2 ih =>
    intro attempt delay elapsed hall
    simp only [registerLoop]
    split_ifs with h1 h2 h3
    · exact absurd (hall attempt (Nat.le_refl _) (by omega)) (by simp [h1])
    · exact Or.inl rfl
    · exact Or.inr rfl
    · exact ih (attempt + 1) (min (delay * 1.5) 30) (elapsed + dur attempt + delay)
        (fun j hj1 hj2 => hall j (by omega) (by omega))

theorem registerLoop_deadline (fails : ℕ → Bool) (dur : ℕ → ℚ) :
    ∀ (rem attempt : ℕ) (delay elapsed : ℚ) (k : ℕ),
      k < (registerLoop fails dur rem attempt delay elapsed).2.length →
      elapsed + (∑ i ∈ Finset.range (k + 1), dur (attempt + i)) +
        (∑ i ∈ Finset.range (k + 1), delayFrom delay i) ≤ 300 := by
  intro rem
  induction rem with
  | zero =>
    intro attempt delay elapsed k hk
    simp [registerLoop] at hk
  | succ rem2 ih =>
    intro attempt delay elapsed k hk
    simp only [registerLoop] at hk
    split_ifs at hk with h1 h2 h3
    · rw [List.length_nil] at hk
      omega
    · rw [List.length_nil] at hk
      omega
    · rw [List.length_nil] at hk
      omega
    · rw [List.length_cons] at hk
      cases k with
      | zero =>
        have hle : elapsed + dur attempt + delay ≤ 300 := not_lt.mp h3
        simp only [Nat.zero_add, Finset.sum_range_one, Nat.add_zero]
        calc elapsed + dur attempt + delayFrom delay 0 = elapsed + dur attempt + delay := rfl
          _ ≤ 300 := hle
      | succ k2 =>
        have hk2 : k2 < (registerLoop fails dur rem2 (attempt + 1) (min (delay * 1.5) 30)
            (elapsed + dur attempt + delay)).2.length := by omega
        have hrec := ih (attempt + 1) (min (delay * 1.5) 30)
          (elapsed + dur attempt + delay) k2 hk2
        have hdur : ∑ i ∈ Finset.range (k2 + 1), dur (attempt + (i + 1)) =
            ∑ i ∈ Finset.range (k2 + 1), dur (attempt + 1 + i) :=
          Finset.sum_congr rfl fun i _ => by
            rw [show attempt + (i + 1) = attempt + 1 + i by omega]
        have hdel : ∑ i ∈ Finset.range (k2 + 1), delayFrom delay (i + 1) =
            ∑ i ∈ Finset.range (k2 + 1), delayFrom (min (delay * 1.5) 30) i :=
          Finset.sum_congr rfl fun i _ => rfl
        rw [Finset.sum_range_succ' (fun i => dur (attempt + i)) (k2 + 1),
          Finset.sum_range_succ' (fun i => delayFrom delay i) (k2 + 1),
          hdur, hdel]
        have h0 : delayFrom delay 0 = delay := rfl
        have hdur0 : dur (attempt + 0) = dur attempt := by norm_num
        rw [h0]
        linarith

/-- C7: the registration loop makes at most 10 attempts (a success index is
below 10 and at most 9 backoff sleeps happen); the sleeps follow the capped
sequence starting at 1 second with each subsequent delay 1.5 times the
previous one capped at 30 seconds; every sleep it does take completes
within the overall 5-minute deadline (otherwise the loop stops with the
timeout error instead); success reports the first non-failing attempt; and
when every attempt fails the caller receives an error outcome (retries
exhausted or deadline expired), never a silent success. -/
theorem registerWithFleetRetry_spec (fails : ℕ → Bool) (dur : ℕ → ℚ) :
    (∀ k, (registerWithFleetRetry fails dur).1 = RegOutcome.success k →
      k < 10 ∧ fails k = false ∧ ∀ j, j < k → fails j = true) ∧
    ((∀ j, j < 10 → fails j = true) →
      ((registerWithFleetRetry fails dur).1 = RegOutcome.exhausted ∨
        (registerWithFleetRetry fails dur).1 = RegOutcome.timeoutErr)) ∧
    (registerWithFleetRetry fails dur).2.length ≤ 9 ∧
    (registerWithFleetRetry fails dur).2 =
      (List.range (registerWithFleetRetry fails dur).2.length).map delaySeq ∧
    (∀ k, k < (registerWithFleetRetry fails dur).2.length →
      (∑ i ∈ Finset.range (k + 1), dur i) +
        (∑ i ∈ Finset.range (k + 1), delaySeq i) ≤ 300) ∧
    delaySeq 0 = 1 ∧
    (∀ n, delaySeq (n + 1) = min (delaySeq n * 1.5) 30) := by
  have hfun : delayFrom 1 = delaySeq := funext delayFrom_one_eq_delaySeq
  refine ⟨?_, ?_, ?_, ?_, ?_, rfl, fun n => rfl⟩
  · intro k h
    obtain ⟨h1, h2, h3, h4⟩ := registerLoop_success fails dur 10 0 1 0 k h
    exact ⟨by omega, h3, fun j hj => h4 j (Nat.zero_le j) hj⟩
  · intro hall
    exact registerLoop_allfail fails dur 10 0 1 0 (fun j _ _ => hall j (by omega))
  · have hlen := (registerLoop_sleeps fails dur 10 0 1 0).2
    show (registerLoop fails dur 10 0 1 0).2.length ≤ 9
    omega
  · have hl := (registerLoop_sleeps fails dur 10 0 1 0).1
    rw [hfun] at hl
    exact hl
  · intro k hk
    have hdl := registerLoop_deadline fails dur 10 0 1 0 k hk
    rw [hfun] at hdl
    have hdur : ∑ i ∈ Finset.range (k + 1), dur (0 + i) =
        ∑ i ∈ Finset.range (k + 1), dur i :=
      Finset.sum_congr rfl fun i _ => by rw [Nat.zero_add]
    rw [hdur] at hdl
    linarith

/-- C7 witness: when every registration attempt fails, the loop ends in an
error outcome. -/
theorem registerWithFleetRetry_witness :
    (registerWithFleetRetry (fun _ => true) (fun _ => 0)).1 = RegOutcome.exhausted ∨
    (registerWithFleetRetry (fun _ => true) (fun _ => 0)).1 = RegOutcome.timeoutErr :=
  (registerWithFleetRetry_spec (fun _ => true) (fun _ => 0)).2.1 (fun _ _ => rfl)
